import Mathlib

/-!
Verification development for the cataloging/indexing engine of the
TheSimpsonsGame-PS3 repository (`src/indexer/new/`).

Python strings are embedded as `List Char` (so slicing `s[:16]`, searching
and concatenation become `List.take`, searches over indices and `++`).
File bytes are embedded as `List Nat`.  The cryptographic digest cores
(SHA-256, MD5) are opaque to every claim we settle, so they are passed as
explicit function arguments `H : List Nat → Nat` and `M : PyStr → Nat`;
the surrounding code (streaming in fixed-size chunks, hex encoding,
identity-key construction, catalog insertion) is translated directly from
the source.
-/

namespace Indexer

/-- Embedding of Python strings. -/
abbrev PyStr := List Char

/-- Embedding of a file's byte contents. -/
abbrev Bytes := List Nat

/-- Hexadecimal digit characters, as produced by Python's `hexdigest()`
(lower-case). -/
def hexDigit (n : Nat) : Char :=
  if n < 10 then Char.ofNat (48 + n) else Char.ofNat (87 + n % 16)

/-- Fixed-width lower-case hexadecimal rendering of a digest value, the
shape of `hashlib...hexdigest()` output (`w = 64` for SHA-256, `w = 32`
for MD5). -/
def hexOfWidth (w : Nat) (n : Nat) : PyStr :=
  (List.range w).map (fun i => hexDigit (n / 16 ^ (w - 1 - i) % 16))

/-- State of a `hashlib` hash object: the bytes fed to it so far via
`update`.  The digest core itself is abstracted as a function of the full
fed byte sequence. -/
structure HashState where
  fed : Bytes
deriving Repr, DecidableEq

/-- Model of `h.update(chunk)`: the hash object absorbs the chunk. -/
def HashState.update (h : HashState) (chunk : Bytes) : HashState :=
  ⟨h.fed ++ chunk⟩

/-- Model of `h.hexdigest()` for a digest core `H` producing `w` hex
characters. -/
def HashState.hexdigest (H : Bytes → Nat) (w : Nat) (h : HashState) : PyStr :=
  hexOfWidth w (H h.fed)

/-- Successive chunks of size `n+1` of a list, the read pattern of
`iter(lambda: f.read(8192), b"")` (the final chunk may be shorter). -/
def chunksOfPos (n : Nat) : Bytes → List Bytes
  | [] => []
  | x :: xs => ((x :: xs).take (n + 1)) :: chunksOfPos n (xs.drop n)
termination_by l => l.length
decreasing_by
  simp only [List.length_cons]
  exact Nat.lt_succ_of_le (List.length_drop n xs ▸ Nat.sub_le _ _)

/-- Source constant: `f.read(8192)` chunk size in `sha256_file`. -/
def READ_CHUNK_SIZE : Nat := 8192

/-- Translation of `core_utils.sha256_file`: streams the file's bytes in
8192-byte chunks through the hash object and returns the hex digest; a
read failure (the `IOError` branch) is embedded as input `none` and
yields result `none` instead of raising. -/
def sha256_file (H : Bytes → Nat) (file : Option Bytes) : Option PyStr :=
  match file with
  | none => none
  | some content =>
    let h : HashState :=
      (chunksOfPos (READ_CHUNK_SIZE - 1) content).foldl HashState.update ⟨[]⟩
    some (h.hexdigest H 64)

/-- Translation of `core_utils.md5_string`: the MD5 hex digest of a
string (digest core `M` abstracted, 32 hex characters). -/
def md5_string (M : PyStr → Nat) (s : PyStr) : PyStr :=
  hexOfWidth 32 (M s)

/-- Error message raised by `generate_uuid` when an argument is falsy. -/
def generateUuidErr : PyStr :=
  "File hash and path hash must be provided to generate UUID.".data

/-- Translation of `core_utils.generate_uuid`: `Except.error` embeds the
`ValueError` raised when either argument is Python-falsy (`None` or the
empty string); otherwise the result is
`f"{file_hash[:16]}_{path_hash[:16]}"`. -/
def generate_uuid : Option PyStr → Option PyStr → Except PyStr PyStr
  | some f, some p =>
    if f.isEmpty || p.isEmpty then .error generateUuidErr
    else .ok (f.take 16 ++ '_' :: p.take 16)
  | _, _ => .error generateUuidErr

/-- Identity key of a file as the indexers compute it: content digest via
`sha256_file`, path digest of the stored relative path via `md5_string`,
combined by `generate_uuid`. -/
def identityKeyOfFile (H : Bytes → Nat) (M : PyStr → Nat)
    (content : Bytes) (relPath : PyStr) : Except PyStr PyStr :=
  generate_uuid (sha256_file H (some content)) (some (md5_string M relPath))

/-- Source constant `config.MAX_DB_RETRIES`. -/
def MAX_DB_RETRIES : Nat := 5

/-- Source constant `config.RETRY_DELAY_SEC`. -/
def RETRY_DELAY_SEC : Nat := 1

/-- Loop body of `db.operations._execute_with_retry` (the source name
carries a leading underscore).  `busy i = true` means attempt `i` raises
`sqlite3.OperationalError("database is locked")`.  `remaining` counts the
iterations left in `for attempt in range(MAX_DB_RETRIES)`.  The result is
`.ok (a, delays)` when attempt `a` actually executed the statement after
sleeping for the logged `delays` (each `RETRY_DELAY_SEC * (attempt + 1)`
seconds, the source's backoff), and `.error delays` when the final
attempt was still locked and the exception was re-raised.  The
`remaining = 0` case mirrors the source's trailing `return None`, which
its own comment marks unreachable. -/
def retryGo (busy : Nat → Bool) (attempt : Nat) :
    (remaining : Nat) → Except (List Nat) (Nat × List Nat)
  | 0 => .error []
  | r + 1 =>
    if busy attempt then
      if attempt < MAX_DB_RETRIES - 1 then
        match retryGo busy (attempt + 1) r with
        | .ok (a, ds) => .ok (a, RETRY_DELAY_SEC * (attempt + 1) :: ds)
        | .error ds => .error (RETRY_DELAY_SEC * (attempt + 1) :: ds)
      else .error []
    else .ok (attempt, [])

/-- Translation of `db.operations._execute_with_retry` restricted to the
lock-retry control flow: all `MAX_DB_RETRIES` loop iterations starting at
attempt 0. -/
def execute_with_retry (busy : Nat → Bool) : Except (List Nat) (Nat × List Nat) :=
  retryGo busy 0 MAX_DB_RETRIES

/-- Busy schedule under which the datastore is never locked. -/
def noBusy : Nat → Bool := fun _ => false

/-- Busy schedule under which the datastore is locked at every attempt. -/
def allBusy : Nat → Bool := fun _ => true

/-- Uniqueness-violation test for a category table: the schema declares
`uuid TEXT UNIQUE` and `source_path TEXT UNIQUE`, so an `INSERT` raises
`sqlite3.IntegrityError` exactly when the new row repeats an existing
row's `source_path` or `uuid`.  The table is generic over its row type
`ρ` with projections for the two constrained columns, matching the
source's table-name-generic operations. -/
def fileConflict {ρ : Type} (uuidOf pathOf : ρ → PyStr)
    (t : List ρ) (data : ρ) : Bool :=
  t.any (fun x => pathOf x == pathOf data || uuidOf x == uuidOf data)

/-- Translation of `db.operations.get_file_uuid_by_path`:
`SELECT uuid FROM table WHERE source_path = ?`, first match or `None`. -/
def get_file_uuid_by_path {ρ : Type} (uuidOf pathOf : ρ → PyStr)
    (t : List ρ) (source_path : PyStr) : Option PyStr :=
  (t.find? (fun x => pathOf x == source_path)).map uuidOf

/-- Translation of `db.operations.insert_file_entry`.  The primary
`INSERT` goes through the retry helper: a persistent lock raises, is
caught by the trailing `except sqlite3.Error` and yields `None` with the
table unchanged.  When the statement executes, a uniqueness violation
raises `IntegrityError`, rolled back and handled by looking up the
existing row's `uuid` by `source_path`, then (failing that) checking for
an existing row with the same `uuid`; only when neither lookup finds a
row does the function give up with `None`.  A conflict-free insert
appends the row and returns its `uuid`. -/
def insert_file_entry {ρ : Type} (uuidOf pathOf : ρ → PyStr) (busy : Nat → Bool)
    (t : List ρ) (data : ρ) : Option PyStr × List ρ :=
  match execute_with_retry busy with
  | .error _ => (none, t)
  | .ok _ =>
    if fileConflict uuidOf pathOf t data then
      match get_file_uuid_by_path uuidOf pathOf t (pathOf data) with
      | some existing_uuid => (some existing_uuid, t)
      | none =>
        if t.any (fun x => uuidOf x == uuidOf data) then (some (uuidOf data), t)
        else (none, t)
    else (some (uuidOf data), t ++ [data])

/-- Row of a relationship table, reduced to its edge-defining column
tuple: parent identity, child identity, child category table.  The
two-column relationship tables (`txd_dds_relationship`,
`blend_preinstanced_relationship`, …) use `child_table = []`; the
autoincrement `id` column takes no part in the uniqueness constraint. -/
structure RelRow where
  parent_uuid : PyStr
  child_uuid : PyStr
  child_table : PyStr
deriving Repr, DecidableEq

/-- Lookup in an association list, modelling Python `dict.get`. -/
def lookupAssoc {α : Type} (m : List (PyStr × α)) (k : PyStr) : Option α :=
  (m.find? (fun x => x.1 == k)).map (fun x => x.2)

/-- Python `str.lower()` (digests and extensions here are ASCII). -/
def pyLower (s : PyStr) : PyStr := s.map Char.toLower

/-- Python `str.lstrip(c)` for a single strip character. -/
def pyLstrip (c : Char) (s : PyStr) : PyStr := s.dropWhile (fun x => x == c)

/-- Source table `config.EXT_GROUPS`. -/
def EXT_GROUPS : List (PyStr × PyStr) :=
  [(".str".data, "Archive_root".data),
   (".preinstanced".data, "models_source".data),
   (".blend".data, "models_blend".data),
   (".glb".data, "models_glb".data),
   (".fbx".data, "models_fbx".data),
   (".txd".data, "texture_dictionary".data),
   (".vp6".data, "video_source".data),
   (".snu".data, "audio_source".data),
   (".mus".data, "audio_other".data),
   (".lua".data, "other".data),
   (".bin".data, "other".data),
   (".txt".data, "other".data),
   (".dds".data, "textures_dds".data),
   (".wav".data, "audio_wav".data),
   (".ogv".data, "video_ogv".data)]

/-- Source table `specific_mappings` inside
`db.schema.get_table_name_for_ext`. -/
def specific_mappings : List (PyStr × PyStr) :=
  [("Archive_root".data, "str_index".data),
   ("models_source".data, "preinstanced_index".data),
   ("models_blend".data, "blend_index".data),
   ("models_glb".data, "glb_index".data),
   ("models_fbx".data, "fbx_index".data),
   ("textures_dds".data, "dds_index".data),
   ("texture_dictionary".data, "txd_index".data),
   ("video_source".data, "video_index".data),
   ("audio_source".data, "snu_index".data),
   ("audio_other".data, "mus_index".data),
   ("other".data, "other_files_index".data),
   ("unknown".data, "unknown_files_index".data),
   ("audio_wav".data, "audio_wav_index".data),
   ("video_ogv".data, "video_ogv_index".data)]

/-- Translation of `db.schema.get_table_name_for_ext`.  The final two
source branches (`elif sanitized_ext` and `else`) both return the
`unknown` table and are merged. -/
def get_table_name_for_ext (ext : PyStr) : PyStr :=
  let sanitized_ext := pyLower (pyLstrip '.' ext)
  let group_name := lookupAssoc EXT_GROUPS (pyLower ext)
  match group_name.bind (lookupAssoc specific_mappings) with
  | some t => t
  | none =>
    match lookupAssoc specific_mappings sanitized_ext with
    | some t => t
    | none =>
      if group_name == some "other".data then "other_files_index".data
      else "unknown_files_index".data

/-- Translation of `db.operations.insert_relationship_entry`.  Every
relationship table's schema puts a `UNIQUE` constraint on exactly the
edge-defining tuple, so the `INSERT` raises `IntegrityError` iff the
tuple is already present; that exception is caught and reported as
success (`True`) with the table unchanged.  A persistent lock (or other
`sqlite3.Error`) yields `False` with the table unchanged. -/
def insert_relationship_entry (busy : Nat → Bool)
    (t : List RelRow) (e : RelRow) : Bool × List RelRow :=
  match execute_with_retry busy with
  | .error _ => (false, t)
  | .ok _ =>
    if t.contains e then (true, t)
    else (true, t ++ [e])

/-- Row of a generic category table, with the columns the indexers
populate (`id` and the timestamp columns are database-generated). -/
structure FileRow where
  uuid : PyStr
  source_file_name : PyStr
  source_path : PyStr
  file_hash : PyStr
  path_hash : PyStr
  group_name : PyStr
deriving Repr, DecidableEq

/-- Row of the `dds_index` table: the generic columns plus the six
optional perceptual-hash columns. -/
structure DdsRow where
  uuid : PyStr
  source_file_name : PyStr
  source_path : PyStr
  file_hash : PyStr
  path_hash : PyStr
  group_name : PyStr
  phash : Option PyStr
  dhash : Option PyStr
  ahash : Option PyStr
  color_phash : Option PyStr
  color_dhash : Option PyStr
  color_ahash : Option PyStr
deriving Repr, DecidableEq

/-- Result dictionary of `dds_file_indexer.calculate_image_hashes`. -/
structure ImageHashes where
  phash : Option PyStr
  dhash : Option PyStr
  ahash : Option PyStr
  color_phash : Option PyStr
  color_dhash : Option PyStr
  color_ahash : Option PyStr
deriving Repr, DecidableEq

/-- Outcome of `PIL.Image.open` plus the downstream `imagehash` calls for
one image, abstracted: `grayHashes` is `some (phash, dhash, ahash)` when
grayscale conversion and hashing succeed, `colorHashes` likewise for the
RGB variants (the color pHash already concatenates the three channel
hashes as the source does). -/
structure DecodedImage where
  grayHashes : Option (PyStr × PyStr × PyStr)
  colorHashes : Option (PyStr × PyStr × PyStr)
deriving Repr, DecidableEq

/-- Translation of `dds_file_indexer.calculate_image_hashes`.  A file
whose image cannot be decoded (`FileNotFoundError`,
`UnidentifiedImageError` or any other exception from `Image.open`) is
embedded as `none` and produces the initial all-`None` dictionary — the
function catches every exception and never raises. -/
def calculate_image_hashes (img : Option DecodedImage) : ImageHashes :=
  match img with
  | none => ⟨none, none, none, none, none, none⟩
  | some d =>
    { phash := d.grayHashes.map (fun h => h.1)
      dhash := d.grayHashes.map (fun h => h.2.1)
      ahash := d.grayHashes.map (fun h => h.2.2)
      color_phash := d.colorHashes.map (fun h => h.1)
      color_dhash := d.colorHashes.map (fun h => h.2.1)
      color_ahash := d.colorHashes.map (fun h => h.2.2) }

/-- Persistent catalog state: the generic category tables keyed by table
name (which includes `str_index` and `txd_index`), the `dds_index` table
with its extra columns, and the `txd_dds_relationship` edge table. -/
structure Catalog where
  gen : PyStr → List FileRow
  dds : List DdsRow
  txdDds : List RelRow

/-- Catalog update writing one generic table. -/
def Catalog.setGen (st : Catalog) (tn : PyStr) (t : List FileRow) : Catalog :=
  { st with gen := fun n => if n == tn then t else st.gen n }

/-- Translation of `dds_file_indexer.index_dds_file`: content digest
(failure → log and return `None` before touching the catalog), path
digest, identity key, best-effort perceptual hashes, then one insert
into `dds_index`; returns the inserted or pre-existing identity key.
`Except.error` embeds an uncaught exception propagating out. -/
def index_dds_file (H : Bytes → Nat) (M : PyStr → Nat) (busy : Nat → Bool)
    (st : Catalog) (content : Option Bytes) (img : Option DecodedImage)
    (fileName relPath : PyStr) : Except PyStr (Option PyStr × Catalog) :=
  match sha256_file H content with
  | none => .ok (none, st)
  | some file_hash =>
    let path_hash := md5_string M relPath
    match generate_uuid (some file_hash) (some path_hash) with
    | .error e => .error e
    | .ok file_uuid =>
      let image_hashes := calculate_image_hashes img
      let row : DdsRow :=
        { uuid := file_uuid
          source_file_name := fileName
          source_path := relPath
          file_hash := file_hash
          path_hash := path_hash
          group_name := (lookupAssoc EXT_GROUPS ".dds".data).getD "textures_dds".data
          phash := image_hashes.phash
          dhash := image_hashes.dhash
          ahash := image_hashes.ahash
          color_phash := image_hashes.color_phash
          color_dhash := image_hashes.color_dhash
          color_ahash := image_hashes.color_ahash }
      let res := insert_file_entry DdsRow.uuid DdsRow.source_path busy st.dds row
      .ok (res.1, { st with dds := res.2 })

/-- Translation of `str_archive_indexer.index_str_archive`: the same
digest/identity/insert sequence into `str_index`. -/
def index_str_archive (H : Bytes → Nat) (M : PyStr → Nat) (busy : Nat → Bool)
    (st : Catalog) (content : Option Bytes)
    (fileName relPath : PyStr) : Except PyStr (Option PyStr × Catalog) :=
  let table_name := get_table_name_for_ext ".str".data
  let group_name := (lookupAssoc EXT_GROUPS ".str".data).getD "audio_root".data
  match sha256_file H content with
  | none => .ok (none, st)
  | some file_hash =>
    let path_hash := md5_string M relPath
    match generate_uuid (some file_hash) (some path_hash) with
    | .error e => .error e
    | .ok file_uuid =>
      let row : FileRow := ⟨file_uuid, fileName, relPath, file_hash, path_hash, group_name⟩
      let res := insert_file_entry FileRow.uuid FileRow.source_path busy (st.gen table_name) row
      .ok (res.1, st.setGen table_name res.2)

/-- Translation of `generic_file_indexer.index_generic_file`: delegate to
the DDS or STR indexer when the extension's table is theirs, otherwise
content digest (failure → log and return `None` before touching the
catalog), path digest, identity key and one insert into the extension's
table. -/
def index_generic_file (H : Bytes → Nat) (M : PyStr → Nat) (busy : Nat → Bool)
    (st : Catalog) (content : Option Bytes) (img : Option DecodedImage)
    (fileName relPath ext groupName : PyStr) : Except PyStr (Option PyStr × Catalog) :=
  let table_name := get_table_name_for_ext ext
  if table_name == get_table_name_for_ext ".dds".data then
    index_dds_file H M busy st content img fileName relPath
  else if table_name == get_table_name_for_ext ".str".data then
    index_str_archive H M busy st content fileName relPath
  else
    match sha256_file H content with
    | none => .ok (none, st)
    | some file_hash =>
      let path_hash := md5_string M relPath
      match generate_uuid (some file_hash) (some path_hash) with
      | .error e => .error e
      | .ok file_uuid =>
        let row : FileRow := ⟨file_uuid, fileName, relPath, file_hash, path_hash, groupName⟩
        let res := insert_file_entry FileRow.uuid FileRow.source_path busy (st.gen table_name) row
        .ok (res.1, st.setGen table_name res.2)

/-- Python `str.endswith`. -/
def pyEndsWith (s suffix : PyStr) : Bool :=
  List.isSuffixOf suffix s

/-- One file yielded by the `os.walk` over a texture dictionary's
conventional `<name>_txd` sibling folder, with the data the DDS indexer
needs for it. -/
structure SiblingImage where
  content : Option Bytes
  img : Option DecodedImage
  fileName : PyStr
  relPath : PyStr

/-- Translation of `relationship_builder.add_txd_dds_relationship`:
skip when either identity is Python-falsy, otherwise record the edge in
`txd_dds_relationship` (a failed insert is only logged). -/
def add_txd_dds_relationship (busy : Nat → Bool) (t : List RelRow)
    (txd_file_uuid dds_file_uuid : PyStr) : List RelRow :=
  if txd_file_uuid.isEmpty || dds_file_uuid.isEmpty then t
  else (insert_relationship_entry busy t ⟨txd_file_uuid, dds_file_uuid, []⟩).2

/-- Translation of `txd_file_indexer.process_txd_contained_dds_files`:
when the conventional `<name>_txd` folder adjacent to the dictionary
exists (`ddsFolderIsDir` embeds its `os.path.isdir` check), walk it and,
for every file name ending in `.dds` (case-insensitive), index the file
via `index_dds_file` and — when both identities are truthy — record a
TXD→DDS edge.  `walkFiles` embeds the files the walk yields, in walk
order. -/
def process_txd_contained_dds_files (H : Bytes → Nat) (M : PyStr → Nat)
    (busy : Nat → Bool) (st : Catalog) (txd_file_uuid : PyStr)
    (ddsFolderIsDir : Bool) (walkFiles : List SiblingImage) : Except PyStr Catalog :=
  if !ddsFolderIsDir then .ok st
  else
    walkFiles.foldl
      (fun acc s =>
        match acc with
        | .error e => .error e
        | .ok st' =>
          if pyEndsWith (pyLower s.fileName) ".dds".data then
            match index_dds_file H M busy st' s.content s.img s.fileName s.relPath with
            | .error e => .error e
            | .ok (some dds_file_uuid, st'') =>
              if !dds_file_uuid.isEmpty && !txd_file_uuid.isEmpty then
                .ok { st'' with
                      txdDds := add_txd_dds_relationship busy st''.txdDds
                        txd_file_uuid dds_file_uuid }
              else .ok st''
            | .ok (none, st'') => .ok st''
          else .ok st')
      (.ok st)

/-- Translation of `txd_file_indexer.index_txd_file`: index the TXD file
itself through the generic indexer (extension `.txd`, group
`EXT_GROUPS.get(".txd", "textures")`); a falsy result skips the
associated-DDS processing and returns `None`, otherwise the conventional
sibling folder's DDS files are processed and the TXD's identity key
returned. -/
def index_txd_file (H : Bytes → Nat) (M : PyStr → Nat) (busy : Nat → Bool)
    (st : Catalog) (content : Option Bytes) (fileName relPath : PyStr)
    (ddsFolderIsDir : Bool) (walkFiles : List SiblingImage) :
    Except PyStr (Option PyStr × Catalog) :=
  let file_ext := ".txd".data
  let group_name := (lookupAssoc EXT_GROUPS file_ext).getD "textures".data
  match index_generic_file H M busy st content none fileName relPath file_ext group_name with
  | .error e => .error e
  | .ok (none, st1) => .ok (none, st1)
  | .ok (some txd_file_uuid, st1) =>
    if txd_file_uuid.isEmpty then .ok (none, st1)
    else
      match process_txd_contained_dds_files H M busy st1 txd_file_uuid
          ddsFolderIsDir walkFiles with
      | .error e => .error e
      | .ok st2 => .ok (some txd_file_uuid, st2)

/-- One file of the Pass-1 root scan, with the data the orchestrator
derives for it: `ext` is `os.path.splitext(name)[1].lower()`, `relPath`
the stored relative path, `content` the readable bytes (or `none` for a
read failure), `img` the image-decode data used by the DDS branch, and
`ddsFolderIsDir`/`siblings` the sibling-folder data used by the TXD
branch. -/
structure RootFile where
  fileName : PyStr
  ext : PyStr
  relPath : PyStr
  content : Option Bytes
  img : Option DecodedImage
  ddsFolderIsDir : Bool
  siblings : List SiblingImage

/-- Translation of the Pass-1 per-file body of
`processing_orchestrator.run_processing_passes` (lines 111–132): skip
extension-less files and `.str` archives, dispatch `.dds` and `.txd` to
their indexers and everything else to the generic indexer, and catch any
exception at the per-file boundary so the walk continues (every embedded
raise point precedes the indexers' catalog insert, so the caught state is
the pre-file state). -/
def processRootFile (H : Bytes → Nat) (M : PyStr → Nat) (busy : Nat → Bool)
    (st : Catalog) (f : RootFile) : Catalog :=
  if f.ext.isEmpty || f.ext == ".str".data then st
  else
    let groupName := (lookupAssoc EXT_GROUPS f.ext).getD "unknown".data
    let res :=
      if f.ext == ".dds".data then
        index_dds_file H M busy st f.content f.img f.fileName f.relPath
      else if f.ext == ".txd".data then
        index_txd_file H M busy st f.content f.fileName f.relPath f.ddsFolderIsDir f.siblings
      else
        index_generic_file H M busy st f.content f.img f.fileName f.relPath f.ext groupName
    match res with
    | .ok r => r.2
    | .error _ => st

/-- Pass-1 walk over the root files in discovery order. -/
def processRootFiles (H : Bytes → Nat) (M : PyStr → Nat) (busy : Nat → Bool)
    (st : Catalog) (files : List RootFile) : Catalog :=
  files.foldl (processRootFile H M busy) st

/-- Python `str.rfind` for a character class: highest index whose
character satisfies the test, `-1` when there is none. -/
def pyRfind (pr : Char → Bool) (s : PyStr) : Int :=
  (List.range s.length).foldl
    (fun acc i => if pr (s.getD i ' ') then (i : Int) else acc) (-1)

/-- Translation of `os.path.splitext` (`ntpath` flavour: separators `\`
and `/`, extension separator `.`): split off the suffix starting at the
last dot of the basename, unless only dots precede it there (leading
dots never start an extension). -/
def splitext (p : PyStr) : PyStr × PyStr :=
  let sepIndex := max (pyRfind (fun c => c == '\\') p) (pyRfind (fun c => c == '/') p)
  let dotIndex := pyRfind (fun c => c == '.') p
  if sepIndex < dotIndex then
    let filenameIndex := (sepIndex + 1).toNat
    if (List.range' filenameIndex (dotIndex.toNat - filenameIndex)).any
        (fun i => !(p.getD i ' ' == '.')) then
      (p.take dotIndex.toNat, p.drop dotIndex.toNat)
    else (p, [])
  else (p, [])

/-- Location map of one category inside a single extraction:
`rel_path_within_extraction ↦ uuid`, a Python dict embedded as an
association list in insertion order. -/
abbrev LocMap := List (PyStr × PyStr)

/-- Core matching loop shared by the three pairing passes of
`relationship_builder.process_relationships_in_extracted_dir`: for every
file of the iterated category, substitute the expected extension onto
its within-extraction relative path (`os.path.splitext(p)[0] + newExt`)
and record one edge exactly when the other category's map holds that
exact path.  The result lists the recorded
`(iterated path, iterated uuid, matched uuid)` triples in iteration
order; only path strings are consulted. -/
def pairDerivedFiles (newExt : PyStr) (iterFiles lookupFiles : LocMap) :
    List (PyStr × PyStr × PyStr) :=
  iterFiles.filterMap (fun a =>
    (lookupAssoc lookupFiles ((splitext a.1).1 ++ newExt)).map
      (fun matched_uuid => (a.1, a.2, matched_uuid)))

/-- Edges recorded by one call of
`process_relationships_in_extracted_dir`, per relationship kind.  The
`modelBlend` entries also carry the export table name
(`get_table_name_for_ext` of the export's extension). -/
structure ExtractionEdges where
  blendPre : List (PyStr × PyStr × PyStr)
  modelBlend : List (PyStr × PyStr × PyStr × PyStr)
  snuWav : List (PyStr × PyStr × PyStr)
deriving Repr, DecidableEq

/-- Translation of
`relationship_builder.process_relationships_in_extracted_dir`: given the
per-extension location maps collected from one STR extraction, run the
three exact-path pairing passes (`.blend` iterated against
`.preinstanced`, `.glb`/`.fbx` iterated against `.blend`, `.snu`
iterated against `.wav`) and report the edges each records.  The pass
receives only this one extraction's maps, consults only path strings and
performs no filesystem access. -/
def process_relationships_in_extracted_dir
    (m : List (PyStr × LocMap)) : ExtractionEdges :=
  let blendPre :=
    match lookupAssoc m ".blend".data, lookupAssoc m ".preinstanced".data with
    | some blends, some pres => pairDerivedFiles ".preinstanced".data blends pres
    | _, _ => []
  let modelBlend :=
    match lookupAssoc m ".blend".data with
    | some blends =>
      let doExt := fun (ext : PyStr) =>
        match lookupAssoc m ext with
        | some models =>
          (pairDerivedFiles ".blend".data models blends).map
            (fun e => (e.1, e.2.1, get_table_name_for_ext ext, e.2.2))
        | none => []
      doExt ".glb".data ++ doExt ".fbx".data
    | none => []
  let snuWav :=
    match lookupAssoc m ".snu".data, lookupAssoc m ".wav".data with
    | some snus, some wavs => pairDerivedFiles ".wav".data snus wavs
    | _, _ => []
  ⟨blendPre, modelBlend, snuWav⟩

/-- Environment of one `extraction_manager.extract_str_file` call:
the archive path, the output directory `get_extraction_output_dir`
resolves for it (`none` embeds its error return), whether the QuickBMS
executable and the BMS script files exist, and the exit code the tool
returns when actually launched. -/
structure ToolEnv where
  strFilePath : PyStr
  outputDirOf : Option PyStr
  exeExists : Bool
  scriptExists : Bool
  exitCode : Nat
deriving Repr, DecidableEq

/-- Control reaches `subprocess.run` in `extract_str_file` exactly when
the path ends in `.str`, the output directory resolves, and both the
executable and the script pass their `os.path.isfile` checks. -/
def toolInvoked (env : ToolEnv) : Bool :=
  pyEndsWith (pyLower env.strFilePath) ".str".data
    && env.outputDirOf.isSome && env.exeExists && env.scriptExists

/-- Translation of `extraction_manager.extract_str_file`: the result pair
is `(success, output directory actually used)`; alongside it we record
the stderr diagnostic lines the call emits.  `subprocess.run` with
`check=True` raises `CalledProcessError` on any non-zero exit code, so
success is reported exactly for a launched tool exiting zero; a missing
executable or script fails before launching, still reporting the output
directory.  The message of the `outputDirOf = none` branch is printed by
`get_extraction_output_dir` itself before it returns `None`.  (The
trailing `FileNotFoundError` handler only guards the race where the
files vanish between the `isfile` checks and the launch; the `isfile`
outcomes are authoritative here.) -/
def extract_str_file (env : ToolEnv) : (Bool × Option PyStr) × List PyStr :=
  if !(pyEndsWith (pyLower env.strFilePath) ".str".data) then
    ((false, none), ["INFO: not a .str file. Skipping extraction.".data])
  else
    match env.outputDirOf with
    | none =>
      ((false, none),
       ["ERROR: File is not under STR_INPUT_DIR. Cannot determine relative path for extraction output.".data])
    | some dir =>
      if !env.exeExists then
        ((false, some dir), ["ERROR: QuickBMS executable not found.".data])
      else if !env.scriptExists then
        ((false, some dir), ["ERROR: BMS script not found.".data])
      else if env.exitCode == 0 then
        ((true, some dir), [])
      else
        ((false, some dir),
         ["ERROR: Extraction failed using QuickBMS.".data,
          "    Return code: ".data ++ (toString env.exitCode).data,
          "    Command: quickbms -o script archive outputdir".data])

/-- Observable outcome of the Pass-2 per-archive block: whether the
external subprocess was launched, the value `extraction_successful`
ends with, and whether the extraction directory's content was indexed
(`process_and_index_extracted_str_content` invoked). -/
structure Pass2Result where
  invoked : Bool
  extraction_successful : Bool
  indexed : Bool
deriving Repr, DecidableEq

/-- Translation of the Pass-2 per-archive block of
`processing_orchestrator.run_processing_passes` (lines 155–195):
an archive that failed to catalog, or whose output directory cannot be
resolved, is skipped; if the resolved output directory already exists
and is non-empty, extraction is skipped, treated as successful, and the
existing directory (necessarily present) is indexed; otherwise
`extract_str_file` runs and the directory is indexed exactly when it
reports success and the directory exists afterwards.
`preExistingNonEmpty` embeds
`os.path.isdir(dir) and any(os.scandir(dir))`; `dirExistsAfter` embeds
the second `os.path.isdir` check after an actual extraction attempt. -/
def run_pass2_for_archive (parent_str_uuid : Option PyStr)
    (preExistingNonEmpty : Bool) (tool : ToolEnv)
    (dirExistsAfter : Bool) : Pass2Result :=
  match parent_str_uuid with
  | none => ⟨false, false, false⟩
  | some _ =>
    match tool.outputDirOf with
    | none => ⟨false, false, false⟩
    | some _ =>
      if preExistingNonEmpty then ⟨false, true, true⟩
      else
        let r := extract_str_file tool
        ⟨toolInvoked tool, r.1.1, r.1.1 && dirExistsAfter⟩

/-- Catalog with no rows anywhere, the state right after
`initialize_database` on a fresh store. -/
def emptyCatalog : Catalog := ⟨fun _ => [], [], []⟩

theorem foldl_update_eq (cs : List Bytes) (h : HashState) :
    cs.foldl HashState.update h = ⟨h.fed ++ cs.flatten⟩ := by
  induction cs generalizing h with
  | nil => simp
  | cons c cs ih => simp [HashState.update, ih]

theorem chunksOfPos_flatten (n : Nat) (l : Bytes) :
    (chunksOfPos n l).flatten = l := by
  induction l using chunksOfPos.induct n with
  | case1 => simp [chunksOfPos]
  | case2 x xs ih =>
    rw [chunksOfPos]
    simp only [List.flatten_cons, ih, List.take_succ_cons]
    simp [List.take_append_drop]

/-- Streaming a file through the hash in 8192-byte chunks digests exactly
the file's full byte contents. -/
theorem sha256_file_some (H : Bytes → Nat) (content : Bytes) :
    sha256_file H (some content) = some (hexOfWidth 64 (H content)) := by
  simp [sha256_file, HashState.hexdigest, foldl_update_eq, chunksOfPos_flatten]

theorem hexOfWidth_length (w n : Nat) : (hexOfWidth w n).length = w := by
  simp [hexOfWidth]

theorem hexOfWidth_ne_nil (w n : Nat) (hw : 0 < w) : hexOfWidth w n ≠ [] := by
  intro h
  have := hexOfWidth_length w n
  rw [h] at this
  simp at this
  omega

theorem generate_uuid_ok (f p : PyStr) (hf : f ≠ []) (hp : p ≠ []) :
    generate_uuid (some f) (some p) = .ok (f.take 16 ++ '_' :: p.take 16) := by
  have hf' : f.isEmpty = false := by
    cases f with | nil => exact absurd rfl hf | cons a l => rfl
  have hp' : p.isEmpty = false := by
    cases p with | nil => exact absurd rfl hp | cons a l => rfl
  simp [generate_uuid, hf', hp']

/-- C2: `identityKey` (`generate_uuid`) is pure and deterministic — for
every pair of digest strings (any string of at least 16 characters, as
every hex digest fed to it is) it returns exactly the fixed 16-character
prefixes of the two digests joined by the underscore separator; equal
inputs always give equal keys, and the identity key computed for a file
from its byte contents and normalized relative location is the same value
on every run. -/
theorem generate_uuid_deterministic :
    (∀ f p : PyStr, 16 ≤ f.length → 16 ≤ p.length →
      generate_uuid (some f) (some p) = .ok (f.take 16 ++ '_' :: p.take 16)
        ∧ (f.take 16).length = 16 ∧ (p.take 16).length = 16)
    ∧ (∀ f₁ p₁ f₂ p₂ : Option PyStr, f₁ = f₂ → p₁ = p₂ →
        generate_uuid f₁ p₁ = generate_uuid f₂ p₂)
    ∧ (∀ (H : Bytes → Nat) (M : PyStr → Nat) c₁ r₁ c₂ r₂, c₁ = c₂ → r₁ = r₂ →
        identityKeyOfFile H M c₁ r₁ = identityKeyOfFile H M c₂ r₂) := by
  refine ⟨?_, ?_, ?_⟩
  · intro f p hf hp
    have hf' : f ≠ [] := by intro h; subst h; simp at hf
    have hp' : p ≠ [] := by intro h; subst h; simp at hp
    refine ⟨generate_uuid_ok f p hf' hp', ?_, ?_⟩ <;> simp <;> omega
  · rintro f₁ p₁ _ _ rfl rfl; rfl
  · rintro H M c₁ r₁ _ _ rfl rfl; rfl

theorem generate_uuid_deterministic_witness :
    16 ≤ ("0123456789abcdef0123456789abcdef".data : PyStr).length ∧
    16 ≤ ("00112233445566778899aabbccddeeff".data : PyStr).length ∧
    generate_uuid (some "0123456789abcdef0123456789abcdef".data)
        (some "00112233445566778899aabbccddeeff".data)
      = .ok (("0123456789abcdef0123456789abcdef".data).take 16 ++ '_' ::
             ("00112233445566778899aabbccddeeff".data).take 16) :=
  ⟨by decide, by decide,
   (generate_uuid_deterministic.1 _ _ (by decide) (by decide)).1⟩

/-- C10: `generate_uuid` raises its `ValueError` exactly when either
digest argument is `None` or the empty string; since `sha256_file` and
`md5_string` always produce non-empty fixed-width hex digests (64 and 32
characters), that error branch is unreachable in the indexers and the
composite key always has the exact
`<content digest[:16]>_<path digest[:16]>` shape. -/
theorem generate_uuid_falsy_guard :
    (∀ fh ph : Option PyStr,
        (generate_uuid fh ph = .error generateUuidErr ↔
          (fh = none ∨ ph = none ∨ fh = some [] ∨ ph = some [])))
    ∧ (∀ (H : Bytes → Nat) c, sha256_file H (some c) = some (hexOfWidth 64 (H c))
        ∧ (hexOfWidth 64 (H c)).length = 64)
    ∧ (∀ (M : PyStr → Nat) s, (md5_string M s).length = 32)
    ∧ (∀ (H : Bytes → Nat) (M : PyStr → Nat) content relPath,
        identityKeyOfFile H M content relPath =
          .ok ((hexOfWidth 64 (H content)).take 16 ++ '_' ::
               (md5_string M relPath).take 16)) := by
  refine ⟨?_, ?_, ?_, ?_⟩
  · intro fh ph
    cases fh with
    | none => simp [generate_uuid]
    | some f =>
      cases ph with
      | none => simp [generate_uuid]
      | some p =>
        by_cases hf : f = [] <;> by_cases hp : p = [] <;>
          simp [generate_uuid, hf, hp]
  · intro H c
    exact ⟨sha256_file_some H c, hexOfWidth_length 64 (H c)⟩
  · intro M s
    simp [md5_string, hexOfWidth_length]
  · intro H M content relPath
    rw [identityKeyOfFile, sha256_file_some]
    exact generate_uuid_ok _ _ (hexOfWidth_ne_nil 64 _ (by omega))
      (hexOfWidth_ne_nil 32 _ (by omega))

theorem exec_ok_exists (busy : Nat → Bool)
    (hok : (execute_with_retry busy).isOk = true) :
    ∃ v, execute_with_retry busy = .ok v := by
  cases h : execute_with_retry busy with
  | ok v => exact ⟨v, rfl⟩
  | error e => rw [h] at hok; simp [Except.isOk, Except.toBool] at hok

theorem insert_file_entry_fresh {ρ : Type} (uuidOf pathOf : ρ → PyStr)
    (busy : Nat → Bool) (t : List ρ) (data : ρ)
    (hok : (execute_with_retry busy).isOk = true)
    (hfresh : ∀ r ∈ t, pathOf r ≠ pathOf data ∧ uuidOf r ≠ uuidOf data) :
    insert_file_entry uuidOf pathOf busy t data = (some (uuidOf data), t ++ [data]) := by
  obtain ⟨v, hv⟩ := exec_ok_exists busy hok
  have hconf : fileConflict uuidOf pathOf t data = false := by
    simp only [fileConflict, List.any_eq_false, Bool.or_eq_true, beq_iff_eq]
    intro x hx
    push_neg
    exact hfresh x hx
  simp [insert_file_entry, hv, hconf]

theorem insert_file_entry_dup {ρ : Type} (uuidOf pathOf : ρ → PyStr)
    (busy : Nat → Bool) (t : List ρ) (data : ρ)
    (hok : (execute_with_retry busy).isOk = true)
    (r : ρ) (hr : r ∈ t)
    (hdup : pathOf r = pathOf data ∨ uuidOf r = uuidOf data) :
    ∃ q, q ∈ t ∧ (pathOf q = pathOf data ∨ uuidOf q = uuidOf data) ∧
      insert_file_entry uuidOf pathOf busy t data = (some (uuidOf q), t) := by
  obtain ⟨v, hv⟩ := exec_ok_exists busy hok
  have hconf : fileConflict uuidOf pathOf t data = true := by
    simp only [fileConflict, List.any_eq_true, Bool.or_eq_true, beq_iff_eq]
    exact ⟨r, hr, hdup⟩
  cases hfind : t.find? (fun x => pathOf x == pathOf data) with
  | some q =>
    have hq : pathOf q = pathOf data := by
      simpa [beq_iff_eq] using List.find?_some hfind
    refine ⟨q, List.mem_of_find?_eq_some hfind, Or.inl hq, ?_⟩
    simp [insert_file_entry, hv, hconf, get_file_uuid_by_path, hfind]
  | none =>
    have hnopath : ∀ x ∈ t, pathOf x ≠ pathOf data := by
      intro x hx
      have h := List.find?_eq_none.mp hfind x hx
      simpa [beq_iff_eq] using h
    have huuid : uuidOf r = uuidOf data := hdup.resolve_left (hnopath r hr)
    have hany : t.any (fun x => uuidOf x == uuidOf data) = true := by
      simp only [List.any_eq_true, beq_iff_eq]
      exact ⟨r, hr, huuid⟩
    refine ⟨r, hr, Or.inr huuid, ?_⟩
    simp [insert_file_entry, hv, hconf, get_file_uuid_by_path, hfind, hany, huuid]

/-- C1: for every category table and every record carrying a location and
an identity key, `insert_file_entry` appends the record and returns its
key when no constraint is violated, and on a uniqueness violation
(duplicate `source_path` or duplicate `uuid`) it leaves the table
unchanged and returns the identity key of an already-stored conflicting
record — a defined result, never a propagated error, so callers need no
existence pre-check. -/
theorem insert_file_entry_conflict_as_lookup {ρ : Type} (uuidOf pathOf : ρ → PyStr)
    (busy : Nat → Bool) (t : List ρ) (data : ρ)
    (hok : (execute_with_retry busy).isOk = true) :
    ((∀ r ∈ t, pathOf r ≠ pathOf data ∧ uuidOf r ≠ uuidOf data) →
        insert_file_entry uuidOf pathOf busy t data = (some (uuidOf data), t ++ [data]))
    ∧ (∀ r ∈ t, (pathOf r = pathOf data ∨ uuidOf r = uuidOf data) →
        ∃ q, q ∈ t ∧ (pathOf q = pathOf data ∨ uuidOf q = uuidOf data) ∧
          insert_file_entry uuidOf pathOf busy t data = (some (uuidOf q), t)) :=
  ⟨fun h => insert_file_entry_fresh uuidOf pathOf busy t data hok h,
   fun r hr hdup => insert_file_entry_dup uuidOf pathOf busy t data hok r hr hdup⟩

theorem insert_file_entry_conflict_as_lookup_witness :
    (execute_with_retry noBusy).isOk = true ∧
    ∃ q, q ∈ [FileRow.mk "u0".data "a.bin".data "p/a.bin".data "h0".data "d0".data "other".data]
      ∧ (q.source_path = (FileRow.mk "u1".data "a.bin".data "p/a.bin".data "h1".data "d1".data "other".data).source_path
          ∨ q.uuid = (FileRow.mk "u1".data "a.bin".data "p/a.bin".data "h1".data "d1".data "other".data).uuid)
      ∧ insert_file_entry FileRow.uuid FileRow.source_path noBusy
          [FileRow.mk "u0".data "a.bin".data "p/a.bin".data "h0".data "d0".data "other".data]
          (FileRow.mk "u1".data "a.bin".data "p/a.bin".data "h1".data "d1".data "other".data)
        = (some q.uuid, [FileRow.mk "u0".data "a.bin".data "p/a.bin".data "h0".data "d0".data "other".data]) :=
  ⟨by decide,
   (insert_file_entry_conflict_as_lookup FileRow.uuid FileRow.source_path noBusy _ _
      (by decide)).2
     (FileRow.mk "u0".data "a.bin".data "p/a.bin".data "h0".data "d0".data "other".data)
     (by decide) (by decide)⟩

/-- C3: `insert_relationship_entry` is idempotent for every relationship
table and edge — an edge is unique per its defining tuple, re-recording
an existing tuple is a no-op rather than an error, the boolean result is
`true` exactly when the edge ended up recorded (newly inserted or
pre-existing, as opposed to a datastore error), and duplicate inserts
never propagate an error; uniqueness of edges is preserved. -/
theorem insert_relationship_entry_idempotent (busy : Nat → Bool)
    (t : List RelRow) (e : RelRow)
    (hok : (execute_with_retry busy).isOk = true) :
    (insert_relationship_entry busy t e).1 = true
    ∧ (e ∈ t → insert_relationship_entry busy t e = (true, t))
    ∧ (e ∉ t → insert_relationship_entry busy t e = (true, t ++ [e]))
    ∧ insert_relationship_entry busy (insert_relationship_entry busy t e).2 e
        = (true, (insert_relationship_entry busy t e).2)
    ∧ (t.Nodup → ((insert_relationship_entry busy t e).2).Nodup) := by
  obtain ⟨v, hv⟩ := exec_ok_exists busy hok
  by_cases hmem : e ∈ t
  · have hc : t.contains e = true := List.elem_iff.mpr hmem
    refine ⟨?_, ?_, ?_, ?_, ?_⟩ <;>
      simp [insert_relationship_entry, hv, hc, hmem]
  · have hc : t.contains e = false := by
      rw [Bool.eq_false_iff]
      intro h
      exact hmem (List.elem_iff.mp h)
    have hc2 : (t ++ [e]).contains e = true := List.elem_iff.mpr (by simp)
    refine ⟨?_, ?_, ?_, ?_, ?_⟩ <;>
      simp [insert_relationship_entry, hv, hc, hmem, hc2]
    intro ht
    simp [List.nodup_append, ht, hmem]

theorem insert_relationship_entry_idempotent_witness :
    (execute_with_retry noBusy).isOk = true ∧
    (RelRow.mk "a".data "b".data "c".data ∈ [RelRow.mk "a".data "b".data "c".data]) ∧
    insert_relationship_entry noBusy [RelRow.mk "a".data "b".data "c".data]
        (RelRow.mk "a".data "b".data "c".data)
      = (true, [RelRow.mk "a".data "b".data "c".data]) :=
  ⟨by decide, by decide,
   (insert_relationship_entry_idempotent noBusy _ _ (by decide)).2.1 (by decide)⟩

/-- C6: every datastore write runs through the retry helper, which on a
"database is locked" condition makes at most `MAX_DB_RETRIES = 5`
attempts (within the spec's 3–5 band), sleeping
`RETRY_DELAY_SEC * (attempt + 1)` seconds between consecutive attempts —
a strictly increasing backoff — and re-raises the lock error after the
final locked attempt; a write operation whose retries are exhausted
reports the failure to its caller (`None` for a file insert, `False` for
an edge insert) rather than pretending success. -/
theorem execute_with_retry_bounded_backoff :
    (MAX_DB_RETRIES = 5 ∧ 3 ≤ MAX_DB_RETRIES ∧ MAX_DB_RETRIES ≤ 5)
    ∧ (∀ busy : Nat → Bool, (∀ i, i < MAX_DB_RETRIES → busy i = true) →
        execute_with_retry busy = .error [1, 2, 3, 4])
    ∧ (∀ (busy : Nat → Bool) (a : Nat) (ds : List Nat),
        execute_with_retry busy = .ok (a, ds) →
        a < MAX_DB_RETRIES ∧ busy a = false ∧
        ds = (List.range a).map (fun i => RETRY_DELAY_SEC * (i + 1)) ∧
        List.Chain' (· < ·) ds)
    ∧ (∀ (ρ : Type) (uuidOf pathOf : ρ → PyStr) (busy : Nat → Bool) (t : List ρ)
        (data : ρ) (ds : List Nat), execute_with_retry busy = .error ds →
        insert_file_entry uuidOf pathOf busy t data = (none, t))
    ∧ (∀ (busy : Nat → Bool) (t : List RelRow) (e : RelRow) (ds : List Nat),
        execute_with_retry busy = .error ds →
        insert_relationship_entry busy t e = (false, t)) := by
  refine ⟨⟨rfl, by decide, by decide⟩, ?_, ?_, ?_, ?_⟩
  · intro busy hb
    have h0 := hb 0 (by decide)
    have h1 := hb 1 (by decide)
    have h2 := hb 2 (by decide)
    have h3 := hb 3 (by decide)
    have h4 := hb 4 (by decide)
    simp [execute_with_retry, retryGo, MAX_DB_RETRIES, RETRY_DELAY_SEC, h0, h1, h2, h3, h4]
  · intro busy a ds h
    rcases hb0 : busy 0 <;> rcases hb1 : busy 1 <;> rcases hb2 : busy 2 <;>
      rcases hb3 : busy 3 <;> rcases hb4 : busy 4 <;>
      simp only [execute_with_retry, retryGo, MAX_DB_RETRIES, RETRY_DELAY_SEC,
        hb0, hb1, hb2, hb3, hb4] at h <;>
      simp at h <;>
      obtain ⟨rfl, rfl⟩ := h <;>
      refine ⟨by decide, by assumption, by decide, by simp⟩
  · intro ρ uuidOf pathOf busy t data ds h
    simp [insert_file_entry, h]
  · intro busy t e ds h
    simp [insert_relationship_entry, h]

theorem execute_with_retry_bounded_backoff_witness :
    (∀ i, i < MAX_DB_RETRIES → allBusy i = true) ∧
    execute_with_retry allBusy = .error [1, 2, 3, 4] ∧
    insert_relationship_entry allBusy [] (RelRow.mk "a".data "b".data "c".data)
      = (false, []) :=
  ⟨fun _ _ => rfl,
   execute_with_retry_bounded_backoff.2.1 allBusy (fun _ _ => rfl),
   execute_with_retry_bounded_backoff.2.2.2.2 allBusy []
     (RelRow.mk "a".data "b".data "c".data) [1, 2, 3, 4] rfl⟩

theorem index_dds_file_none (H : Bytes → Nat) (M : PyStr → Nat) (busy : Nat → Bool)
    (st : Catalog) (img : Option DecodedImage) (fn rp : PyStr) :
    index_dds_file H M busy st none img fn rp = .ok (none, st) := rfl

theorem index_str_archive_none (H : Bytes → Nat) (M : PyStr → Nat) (busy : Nat → Bool)
    (st : Catalog) (fn rp : PyStr) :
    index_str_archive H M busy st none fn rp = .ok (none, st) := rfl

theorem index_generic_file_none (H : Bytes → Nat) (M : PyStr → Nat) (busy : Nat → Bool)
    (st : Catalog) (img : Option DecodedImage) (fn rp ext gn : PyStr) :
    index_generic_file H M busy st none img fn rp ext gn = .ok (none, st) := by
  unfold index_generic_file
  dsimp only
  split_ifs <;> rfl

theorem index_txd_file_none (H : Bytes → Nat) (M : PyStr → Nat) (busy : Nat → Bool)
    (st : Catalog) (fn rp : PyStr) (ddsDir : Bool) (sib : List SiblingImage) :
    index_txd_file H M busy st none fn rp ddsDir sib = .ok (none, st) := by
  unfold index_txd_file
  dsimp only
  rw [index_generic_file_none]

theorem processRootFile_content_none (H : Bytes → Nat) (M : PyStr → Nat)
    (busy : Nat → Bool) (st : Catalog) (f : RootFile) (h : f.content = none) :
    processRootFile H M busy st f = st := by
  unfold processRootFile
  rw [h]
  split_ifs <;>
    simp [index_dds_file_none, index_txd_file_none, index_generic_file_none]

/-- C7: `sha256_file` streams the file through the hash in fixed-size
8192-byte chunks (digesting exactly the full contents) and a read failure
yields `None` instead of raising; a file whose content digest cannot be
computed is never cataloged — the indexer returns `None` with every table
untouched — and the Pass-1 walk continues with the next file
unaffected. -/
theorem content_digest_failure_skips_file (H : Bytes → Nat) (M : PyStr → Nat)
    (busy : Nat → Bool) (st : Catalog) (f : RootFile)
    (hcontent : f.content = none) :
    sha256_file H f.content = none
    ∧ (∀ c : Bytes, sha256_file H (some c) = some (hexOfWidth 64 (H c)))
    ∧ index_generic_file H M busy st f.content f.img f.fileName f.relPath f.ext
        ((lookupAssoc EXT_GROUPS f.ext).getD "unknown".data) = .ok (none, st)
    ∧ processRootFile H M busy st f = st
    ∧ (∀ rest, processRootFiles H M busy st (f :: rest)
        = processRootFiles H M busy st rest) := by
  refine ⟨by rw [hcontent]; rfl, fun c => sha256_file_some H c,
    by rw [hcontent]; exact index_generic_file_none H M busy st f.img f.fileName f.relPath f.ext _,
    processRootFile_content_none H M busy st f hcontent, ?_⟩
  intro rest
  simp [processRootFiles, processRootFile_content_none H M busy st f hcontent]

theorem content_digest_failure_skips_file_witness :
    (RootFile.mk "a.bin".data ".bin".data "p/a.bin".data none none false []).content = none
    ∧ processRootFile (fun _ => 0) (fun _ => 0) noBusy emptyCatalog
        (RootFile.mk "a.bin".data ".bin".data "p/a.bin".data none none false [])
      = emptyCatalog :=
  ⟨rfl,
   (content_digest_failure_skips_file (fun _ => 0) (fun _ => 0) noBusy emptyCatalog
      (RootFile.mk "a.bin".data ".bin".data "p/a.bin".data none none false []) rfl).2.2.2.1⟩

/-- C8: a `.dds` file whose perceptual-hash computation fails (image not
decodable) is still cataloged by content identity — `index_dds_file`
inserts a row carrying its identity key, content digest and path digest
into the image table, with all six perceptual-hash fields absent;
perceptual hashing is never a precondition for cataloging. -/
theorem index_dds_catalogs_despite_image_failure (H : Bytes → Nat) (M : PyStr → Nat)
    (busy : Nat → Bool) (st : Catalog) (content : Bytes) (fileName relPath : PyStr)
    (hok : (execute_with_retry busy).isOk = true)
    (hfresh : ∀ r ∈ st.dds, r.source_path ≠ relPath ∧
        r.uuid ≠ (hexOfWidth 64 (H content)).take 16 ++ '_' ::
          (md5_string M relPath).take 16) :
    calculate_image_hashes none = ⟨none, none, none, none, none, none⟩
    ∧ ∃ row : DdsRow,
      index_dds_file H M busy st (some content) none fileName relPath
        = .ok (some row.uuid, { st with dds := st.dds ++ [row] })
      ∧ row.uuid = (hexOfWidth 64 (H content)).take 16 ++ '_' ::
          (md5_string M relPath).take 16
      ∧ row.file_hash = hexOfWidth 64 (H content)
      ∧ row.path_hash = md5_string M relPath
      ∧ row.source_path = relPath
      ∧ row.phash = none ∧ row.dhash = none ∧ row.ahash = none
      ∧ row.color_phash = none ∧ row.color_dhash = none ∧ row.color_ahash = none := by
  refine ⟨rfl, ?_⟩
  have h64 : hexOfWidth 64 (H content) ≠ [] := hexOfWidth_ne_nil 64 _ (by omega)
  have h32 : md5_string M relPath ≠ [] := hexOfWidth_ne_nil 32 _ (by omega)
  refine ⟨{ uuid := (hexOfWidth 64 (H content)).take 16 ++ '_' ::
              (md5_string M relPath).take 16
            source_file_name := fileName
            source_path := relPath
            file_hash := hexOfWidth 64 (H content)
            path_hash := md5_string M relPath
            group_name := (lookupAssoc EXT_GROUPS ".dds".data).getD "textures_dds".data
            phash := none, dhash := none, ahash := none
            color_phash := none, color_dhash := none, color_ahash := none },
    ?_, rfl, rfl, rfl, rfl, rfl, rfl, rfl, rfl, rfl, rfl⟩
  unfold index_dds_file
  rw [sha256_file_some]
  dsimp only
  rw [generate_uuid_ok _ _ h64 h32]
  dsimp only
  rw [insert_file_entry_fresh DdsRow.uuid DdsRow.source_path busy st.dds _ hok hfresh]
  rfl

theorem index_dds_catalogs_despite_image_failure_witness :
    (execute_with_retry noBusy).isOk = true
    ∧ ∃ row : DdsRow,
      index_dds_file (fun _ => 0) (fun _ => 0) noBusy emptyCatalog (some [])
          none "t.dds".data "x/t.dds".data
        = .ok (some row.uuid, { emptyCatalog with dds := emptyCatalog.dds ++ [row] })
      ∧ row.uuid = (hexOfWidth 64 ((fun _ => (0 : Nat)) ([] : Bytes))).take 16 ++ '_' ::
          (md5_string (fun _ => 0) "x/t.dds".data).take 16
      ∧ row.file_hash = hexOfWidth 64 ((fun _ => (0 : Nat)) ([] : Bytes))
      ∧ row.path_hash = md5_string (fun _ => 0) "x/t.dds".data
      ∧ row.source_path = "x/t.dds".data
      ∧ row.phash = none ∧ row.dhash = none ∧ row.ahash = none
      ∧ row.color_phash = none ∧ row.color_dhash = none ∧ row.color_ahash = none :=
  ⟨by decide,
   (index_dds_catalogs_despite_image_failure (fun _ => 0) (fun _ => 0) noBusy
      emptyCatalog [] "t.dds".data "x/t.dds".data (by decide)
      (by intro r hr; simp [emptyCatalog] at hr)).2⟩

theorem pairDerivedFiles_mem (ext : PyStr) (as bs : LocMap) (ap au bu : PyStr) :
    (ap, au, bu) ∈ pairDerivedFiles ext as bs ↔
      ((ap, au) ∈ as ∧ lookupAssoc bs ((splitext ap).1 ++ ext) = some bu) := by
  simp only [pairDerivedFiles, List.mem_filterMap, Option.map_eq_some']
  constructor
  · rintro ⟨⟨a1, a2⟩, ha, mu, hlk, heq⟩
    obtain ⟨e1, heq'⟩ := Prod.ext_iff.mp heq
    obtain ⟨e2, e3⟩ := Prod.ext_iff.mp heq'
    dsimp only at e1 e2 e3
    subst e1; subst e2; subst e3
    exact ⟨ha, hlk⟩
  · rintro ⟨ha, hlk⟩
    exact ⟨(ap, au), ha, bu, hlk, rfl⟩

theorem pairDerivedFiles_count_one (ext : PyStr) (as bs : LocMap)
    (hnd : (as.map Prod.fst).Nodup) (ap au bu : PyStr)
    (hmem : (ap, au, bu) ∈ pairDerivedFiles ext as bs) :
    (pairDerivedFiles ext as bs).count (ap, au, bu) = 1 := by
  obtain ⟨hin, hlk⟩ := (pairDerivedFiles_mem ext as bs ap au bu).mp hmem
  unfold pairDerivedFiles
  rw [List.count_filterMap]
  have hcong : ∀ a ∈ as,
      (((lookupAssoc bs ((splitext a.1).1 ++ ext)).map
          (fun mu => (a.1, a.2, mu)) == some (ap, au, bu)) = true
        ↔ decide (a = (ap, au)) = true) := by
    intro a _
    rw [beq_iff_eq, decide_eq_true_eq]
    constructor
    · intro hf
      obtain ⟨mu, _, heq⟩ := Option.map_eq_some'.mp hf
      obtain ⟨e1, heq'⟩ := Prod.ext_iff.mp heq
      obtain ⟨e2, _⟩ := Prod.ext_iff.mp heq'
      exact Prod.ext e1 e2
    · intro ha
      rw [ha]
      simp only [Option.map_eq_some']
      exact ⟨bu, hlk, rfl⟩
  rw [List.countP_congr hcong]
  show @List.count (PyStr × PyStr) instBEqOfDecidableEq (ap, au) as = 1
  exact List.count_eq_one_of_mem (hnd.of_map) hin

/-- C4: the pairing pass records an edge between a source file and an
export file of the same extraction exactly when their within-extraction
relative paths coincide after substituting the expected extension, and it
records exactly one edge per matching pair; it is a pure pass over path
strings (the functions take only the location maps of one extraction),
so pairing never crosses extractions and never fuzzy-matches —
`a/b.blend` pairs with `a/b.preinstanced` while `c/b.preinstanced` in a
different directory produces no edge. -/
theorem pairing_exact_relative_path_match (ext : PyStr) (as bs : LocMap) :
    (∀ ap au bu, (ap, au, bu) ∈ pairDerivedFiles ext as bs ↔
        ((ap, au) ∈ as ∧ lookupAssoc bs ((splitext ap).1 ++ ext) = some bu))
    ∧ ((as.map Prod.fst).Nodup → ∀ ap au bu,
        (ap, au, bu) ∈ pairDerivedFiles ext as bs →
        (pairDerivedFiles ext as bs).count (ap, au, bu) = 1)
    ∧ (∀ (m : List (PyStr × LocMap)) (blends pres : LocMap),
        lookupAssoc m ".blend".data = some blends →
        lookupAssoc m ".preinstanced".data = some pres →
        (process_relationships_in_extracted_dir m).blendPre
          = pairDerivedFiles ".preinstanced".data blends pres)
    ∧ pairDerivedFiles ".preinstanced".data
        [("a/b.blend".data, "u1".data)] [("a/b.preinstanced".data, "u2".data)]
        = [("a/b.blend".data, "u1".data, "u2".data)]
    ∧ pairDerivedFiles ".preinstanced".data
        [("a/b.blend".data, "u1".data)] [("c/b.preinstanced".data, "u2".data)]
        = [] := by
  refine ⟨pairDerivedFiles_mem ext as bs,
    fun hnd ap au bu hmem => pairDerivedFiles_count_one ext as bs hnd ap au bu hmem,
    ?_, by decide, by decide⟩
  intro m blends pres h1 h2
  simp [process_relationships_in_extracted_dir, h1, h2]

theorem pairing_exact_relative_path_match_witness :
    (([("a/b.blend".data, "u1".data)] : LocMap).map Prod.fst).Nodup ∧
    ("a/b.blend".data, "u1".data, "u2".data) ∈
      pairDerivedFiles ".preinstanced".data
        [("a/b.blend".data, "u1".data)] [("a/b.preinstanced".data, "u2".data)] ∧
    (pairDerivedFiles ".preinstanced".data
        [("a/b.blend".data, "u1".data)] [("a/b.preinstanced".data, "u2".data)]).count
      ("a/b.blend".data, "u1".data, "u2".data) = 1 :=
  ⟨by decide, by decide,
   (pairing_exact_relative_path_match ".preinstanced".data
      [("a/b.blend".data, "u1".data)] [("a/b.preinstanced".data, "u2".data)]).2.1
     (by decide) _ _ _ (by decide)⟩

/-- C9: `extract_str_file` launches the external tool as a blocking
subprocess and reports success exactly when the tool exits with code
zero; a non-zero exit code, a missing executable, or a missing BMS
script each yield failure accompanied by non-empty diagnostic text, and
in success and failure alike the output directory actually used is
returned to the caller. -/
theorem extract_reports_exit_code_and_dir (tool : ToolEnv) (d : PyStr)
    (hstr : pyEndsWith (pyLower tool.strFilePath) ".str".data = true)
    (hdir : tool.outputDirOf = some d) :
    ((extract_str_file tool).1.1 = true ↔
        (tool.exeExists = true ∧ tool.scriptExists = true ∧ tool.exitCode = 0))
    ∧ (extract_str_file tool).1.2 = some d
    ∧ ((tool.exeExists = false ∨ tool.scriptExists = false ∨ tool.exitCode ≠ 0) →
        (extract_str_file tool).1.1 = false ∧ (extract_str_file tool).2 ≠ []) := by
  obtain ⟨p, od, exe, scr, ec⟩ := tool
  dsimp only at hstr hdir ⊢
  subst hdir
  rcases exe <;> rcases scr <;> by_cases hec : ec = 0 <;>
    simp [extract_str_file, hstr, hec]

theorem extract_reports_exit_code_and_dir_witness :
    pyEndsWith (pyLower (ToolEnv.mk "A/B.STR".data (some "out/B_str".data) true true 7).strFilePath)
        ".str".data = true
    ∧ (((extract_str_file (ToolEnv.mk "A/B.STR".data (some "out/B_str".data) true true 7)).1.1 = true ↔
        ((ToolEnv.mk "A/B.STR".data (some "out/B_str".data) true true 7).exeExists = true
          ∧ (ToolEnv.mk "A/B.STR".data (some "out/B_str".data) true true 7).scriptExists = true
          ∧ (ToolEnv.mk "A/B.STR".data (some "out/B_str".data) true true 7).exitCode = 0))
      ∧ (extract_str_file (ToolEnv.mk "A/B.STR".data (some "out/B_str".data) true true 7)).1.2
          = some "out/B_str".data
      ∧ (((ToolEnv.mk "A/B.STR".data (some "out/B_str".data) true true 7).exeExists = false
            ∨ (ToolEnv.mk "A/B.STR".data (some "out/B_str".data) true true 7).scriptExists = false
            ∨ (ToolEnv.mk "A/B.STR".data (some "out/B_str".data) true true 7).exitCode ≠ 0) →
          (extract_str_file (ToolEnv.mk "A/B.STR".data (some "out/B_str".data) true true 7)).1.1 = false
          ∧ (extract_str_file (ToolEnv.mk "A/B.STR".data (some "out/B_str".data) true true 7)).2 ≠ [])) :=
  ⟨by decide,
   extract_reports_exit_code_and_dir
     (ToolEnv.mk "A/B.STR".data (some "out/B_str".data) true true 7)
     "out/B_str".data (by decide) rfl⟩

/-- C5: an archive whose computed output directory already exists and is
non-empty has its extraction skipped and treated as success without
invoking the external subprocess, while the previously materialized
content is still indexed; an archive without such a directory (with the
tool and script present) has the subprocess invoked. -/
theorem extraction_skipped_when_materialized (u d : PyStr) (tool : ToolEnv)
    (dirExistsAfter : Bool)
    (hstr : pyEndsWith (pyLower tool.strFilePath) ".str".data = true)
    (hdir : tool.outputDirOf = some d)
    (hexe : tool.exeExists = true) (hscr : tool.scriptExists = true) :
    run_pass2_for_archive (some u) true tool dirExistsAfter
      = ⟨false, true, true⟩
    ∧ (run_pass2_for_archive (some u) false tool dirExistsAfter).invoked = true := by
  constructor
  · simp [run_pass2_for_archive, hdir]
  · simp [run_pass2_for_archive, hdir, toolInvoked, hstr, hexe, hscr]

theorem extraction_skipped_when_materialized_witness :
    pyEndsWith (pyLower (ToolEnv.mk "a/b.str".data (some "out/b_str".data) true true 0).strFilePath)
        ".str".data = true
    ∧ (run_pass2_for_archive (some "u".data) true
          (ToolEnv.mk "a/b.str".data (some "out/b_str".data) true true 0) true
        = ⟨false, true, true⟩
      ∧ (run_pass2_for_archive (some "u".data) false
            (ToolEnv.mk "a/b.str".data (some "out/b_str".data) true true 0) true).invoked = true) :=
  ⟨by decide,
   extraction_skipped_when_materialized "u".data "out/b_str".data
     (ToolEnv.mk "a/b.str".data (some "out/b_str".data) true true 0) true
     (by decide) rfl rfl rfl⟩

end Indexer
